import Mathlib

/-!
Shallow embedding of the booking lifecycle engine of the
tbz-booking-backend repository (Go): the data model of package
booking, the service operations of booking_service.go, the
notification composition, and the SQL repository's insert.

External collaborators (the repository interface and the chat client)
are modelled as explicit behaviour oracles passed to each operation;
each operation returns, besides its Go return values, the list of
repository write calls it issued and the messages it handed to the
chat client, so that frame and side-effect claims are statable.
-/

/-- Go errors as they occur in the booking package: the three sentinel
errors of errors.go, opaque errors created elsewhere, and wrapping via
fmt.Errorf with a percent-w verb. -/
inductive GoError where
  | bookingNotFound
  | invalidBookingState
  | notAllowed
  | errorNew (msg : String)
  | wrap (msg : String) (cause : GoError)
deriving DecidableEq, Repr

/-- The Booking struct of the booking package. The Go time.Time instant
is modelled as an integer timestamp. -/
structure Booking where
  ID : String
  Game : String
  UserID : String
  Username : String
  Points : Int
  Description : String
  Status : String
  ReminderEnabled : Bool
  DateTime : Int
  Players : List String
deriving DecidableEq, Repr

/-- The Go zero value of Booking, returned by the repository on a failed
insert. -/
def Booking.zero : Booking :=
  ⟨"", "", "", "", 0, "", "", false, 0, []⟩

/-- The User struct of the discord package. -/
structure User where
  ID : String
  Username : String
deriving DecidableEq, Repr

/-- The Member struct of the discord package. -/
structure Member where
  User : User
  Roles : List String
deriving DecidableEq, Repr

/-- The DiscordUser struct (the authenticated caller set by the auth
middleware). -/
structure DiscordUser where
  ID : String
  Username : String
  Admin : Bool
deriving DecidableEq, Repr

/-- The EmbedField struct of the discord package. -/
structure EmbedField where
  Name : String
  Value : String
  Inline : Bool
deriving DecidableEq, Repr

/-- The Embed struct of the discord package (the fields sendNotification
populates). -/
structure Embed where
  EmbedType : String
  Title : String
  Fields : List EmbedField
  ChannelID : String
deriving DecidableEq, Repr

/-- The Message struct of the discord package. -/
structure Message where
  Content : String
  Embeds : List Embed
deriving DecidableEq, Repr

/-- Behaviour oracle for the chat client: the result of each
SearchMembers call (keyed by query and limit) and of SendMessage. The
service discards the SendMessage result, which the oracle still records
so that independence from it can be stated. -/
structure ChatBehavior where
  searchMembers : String → Nat → Except GoError (List Member)
  sendMessageErr : String → Message → Option GoError

/-- Behaviour oracle for the BookingRepository interface as used by the
service: the (Booking, error) pair returned by GetBookingByID, the pair
returned by InsertBooking, and the errors returned by UpdateBooking and
SetBookingStatus. -/
structure RepoBehavior where
  getBookingByID : String → Booking × Option GoError
  insertBooking : Booking → Booking × Option GoError
  updateBookingErr : Booking → Option GoError
  setBookingStatusErr : String → String → Option GoError

/-- A repository write call issued by the service. -/
inductive RepoWrite where
  | insert (b : Booking)
  | update (b : Booking)
  | setStatus (id status : String)
deriving DecidableEq, Repr

/-- Whether a write call committed: a repository write that returned an
error changed nothing (the SQL statement either errored or affected zero
rows, in which case the Go code returns ErrBookingNotFound). -/
def RepoWrite.committed (repo : RepoBehavior) : RepoWrite → Bool
  | .insert b => ((repo.insertBooking b).2).isNone
  | .update b => (repo.updateBookingErr b).isNone
  | .setStatus id status => (repo.setBookingStatusErr id status).isNone

/-- The committed subsequence of a list of write calls. -/
def commitsOf (repo : RepoBehavior) (writes : List RepoWrite) : List RepoWrite :=
  writes.filter (RepoWrite.committed repo)

/-- Result of one service operation: the Go error it returned, the
repository write calls it issued, and the messages handed to
SendMessage. -/
structure OpResult where
  err : Option GoError
  writes : List RepoWrite
  sent : List Message
deriving DecidableEq, Repr

/-- The checkUserAllowed helper of booking_service.go. -/
def checkUserAllowed (booking : Booking) (user : DiscordUser) : Bool :=
  if booking.UserID != user.ID && !(booking.Players.contains user.Username) then
    false
  else
    true

/-- The NotificationOptions struct of booking_service.go. -/
structure NotificationOptions where
  message : String
  reason : String
deriving DecidableEq, Repr

/-- The player-tag loop of sendNotification: for each player name, a tag
built from the first member returned by SearchMembers with limit 1 is
appended when the search returned no error and a non-empty list. -/
def playerTagsOf (search : String → Nat → Except GoError (List Member)) :
    List String → List String
  | [] => []
  | player :: rest =>
    match search player 1 with
    | .ok (m :: _) => ("<@" ++ m.User.ID ++ ">") :: playerTagsOf search rest
    | .ok [] => playerTagsOf search rest
    | .error _ => playerTagsOf search rest

/-- Rendering of the booking instant by sendNotification. The Go code
formats the instant in the Europe/Paris zone, falling back to the local
zone when tzdata is unavailable; the text is environment-dependent and
no claim depends on it, so an injective stand-in rendering is used. -/
def formatLocalDateTime (t : Int) : String :=
  toString t

/-- The embed built by Service.sendNotification of booking_service.go. -/
def composeEmbed (chat : ChatBehavior) (channelID : String) (booking : Booking)
    (options : NotificationOptions) : Embed :=
  let playerTags := playerTagsOf chat.searchMembers booking.Players
  let userTag :=
    if booking.UserID.length ≠ 0 then
      "<@" ++ booking.UserID ++ ">"
    else
      "<@" ++ booking.Username ++ ">"
  let description :=
    if booking.Description.length ≠ 0 then booking.Description else "Aucune"
  let fields : List EmbedField :=
    [⟨"Utilisateur", userTag, true⟩,
     ⟨"Date et Heure", formatLocalDateTime booking.DateTime, true⟩,
     ⟨"Jeu", booking.Game, true⟩,
     ⟨"Points", toString booking.Points, true⟩,
     ⟨"Joueurs", String.intercalate ", " playerTags, true⟩,
     ⟨"Description", description, true⟩]
  { EmbedType := "rich"
    Title := options.message
    Fields :=
      if options.reason.length ≠ 0 then
        fields ++ [⟨"Raison", options.reason, true⟩]
      else
        fields
    ChannelID := channelID }

/-- The message Service.sendNotification hands to SendMessage. The Go
function always returns nil and ignores the SendMessage error. -/
def sendNotification (chat : ChatBehavior) (channelID : String) (booking : Booking)
    (options : NotificationOptions) : Message :=
  { Content := "", Embeds := [composeEmbed chat channelID booking options] }

namespace Service

/-- Service.CreateBooking of booking_service.go: insert, then notify on
success; returns the repository's (Booking, error) pair. -/
def CreateBooking (repo : RepoBehavior) (chat : ChatBehavior) (channelID : String)
    (booking : Booking) : Booking × OpResult :=
  match repo.insertBooking booking with
  | (inserted, none) =>
    (inserted,
     ⟨none, [.insert booking],
      [sendNotification chat channelID inserted ⟨"Nouvelle Réservation :calendar:", ""⟩]⟩)
  | (inserted, some e) => (inserted, ⟨some e, [.insert booking], []⟩)

/-- Service.ModifyBooking of booking_service.go. -/
def ModifyBooking (repo : RepoBehavior) (chat : ChatBehavior) (channelID : String)
    (updated : Booking) (user : DiscordUser) : OpResult :=
  match repo.getBookingByID updated.ID with
  | (_, some e) => ⟨some e, [], []⟩
  | (booking, none) =>
    if booking.Status ≠ "pending" then
      ⟨some .invalidBookingState, [], []⟩
    else if !(checkUserAllowed booking user) then
      ⟨some .notAllowed, [], []⟩
    else
      let booking :=
        { booking with
          Game := updated.Game
          Points := updated.Points
          Description := updated.Description
          ReminderEnabled := updated.ReminderEnabled
          DateTime := updated.DateTime
          Players := updated.Players }
      match repo.updateBookingErr booking with
      | none =>
        ⟨none, [.update booking],
         [sendNotification chat channelID booking ⟨"Réservation Modifiée :pencil:", ""⟩]⟩
      | some e => ⟨some e, [.update booking], []⟩

/-- Service.AcceptBooking of booking_service.go. -/
def AcceptBooking (repo : RepoBehavior) (chat : ChatBehavior) (channelID : String)
    (id : String) : OpResult :=
  match repo.getBookingByID id with
  | (_, some e) => ⟨some e, [], []⟩
  | (booking, none) =>
    if booking.Status = "canceled" ∨ booking.Status = "accepted" then
      ⟨some .invalidBookingState, [], []⟩
    else
      match repo.setBookingStatusErr id "accepted" with
      | none =>
        ⟨none, [.setStatus id "accepted"],
         [sendNotification chat channelID booking
           ⟨"Réservation Acceptée :white_check_mark:", ""⟩]⟩
      | some e => ⟨some e, [.setStatus id "accepted"], []⟩

/-- Service.RefuseBooking of booking_service.go. -/
def RefuseBooking (repo : RepoBehavior) (chat : ChatBehavior) (channelID : String)
    (id reason : String) : OpResult :=
  match repo.getBookingByID id with
  | (_, some e) => ⟨some e, [], []⟩
  | (booking, none) =>
    if booking.Status = "refused" ∨ booking.Status = "canceled" then
      ⟨some .invalidBookingState, [], []⟩
    else
      match repo.setBookingStatusErr id "refused" with
      | none =>
        ⟨none, [.setStatus id "refused"],
         [sendNotification chat channelID booking
           ⟨"Réservation Refusée :no_entry:", reason⟩]⟩
      | some e => ⟨some e, [.setStatus id "refused"], []⟩

/-- Service.CancelBooking of booking_service.go. A failed status write is
wrapped with the message "failed to cancel booking". -/
def CancelBooking (repo : RepoBehavior) (chat : ChatBehavior) (channelID : String)
    (id : String) (user : DiscordUser) : OpResult :=
  match repo.getBookingByID id with
  | (_, some e) => ⟨some e, [], []⟩
  | (booking, none) =>
    if booking.Status = "canceled" ∨ booking.Status = "refused" then
      ⟨some .invalidBookingState, [], []⟩
    else if !(checkUserAllowed booking user) then
      ⟨some .notAllowed, [], []⟩
    else
      match repo.setBookingStatusErr id "canceled" with
      | some e => ⟨some (.wrap "failed to cancel booking" e), [.setStatus id "canceled"], []⟩
      | none =>
        ⟨none, [.setStatus id "canceled"],
         [sendNotification chat channelID booking
           ⟨"Réservation Annulée :negative_squared_cross_mark:", ""⟩]⟩

end Service

/-- Repository.InsertBooking of the SQL repository: the INSERT statement
binds the status column to the literal string pending, the database
assigns the id (RETURNING id, modelled by the scanID oracle), and on
success the function returns the caller's struct with only ID
overwritten. The first component is the returned (Booking, error) pair,
the second the row committed to the booking table (none when the query
errored). -/
def Repository.InsertBooking (scanID : Except GoError String) (booking : Booking) :
    (Booking × Option GoError) × Option Booking :=
  match scanID with
  | .error e => ((Booking.zero, some (.wrap "failed to insert booking" e)), none)
  | .ok id =>
    (({ booking with ID := id }, none),
     some { booking with ID := id, Status := "pending" })

/-- A repository behaviour whose insert is the SQL Repository.InsertBooking
with database outcome scanID (the other methods are unused on the create
path). -/
def repoWithInsert (scanID : Except GoError String) : RepoBehavior :=
  { getBookingByID := fun _ => (Booking.zero, some .bookingNotFound)
    insertBooking := fun b => (Repository.InsertBooking scanID b).1
    updateBookingErr := fun _ => none
    setBookingStatusErr := fun _ _ => none }

/-- Service.CreateBooking composed with the SQL repository: the service
return value and effects, paired with the row committed to the booking
table. -/
def createBookingWithRepository (scanID : Except GoError String) (chat : ChatBehavior)
    (channelID : String) (booking : Booking) : (Booking × OpResult) × Option Booking :=
  (Service.CreateBooking (repoWithInsert scanID) chat channelID booking,
   (Repository.InsertBooking scanID booking).2)

/-- A repository behaviour that serves booking b for every lookup and
whose writes all succeed. -/
def constRepo (b : Booking) : RepoBehavior :=
  { getBookingByID := fun _ => (b, none)
    insertBooking := fun x => (x, none)
    updateBookingErr := fun _ => none
    setBookingStatusErr := fun _ _ => none }

/-- A chat behaviour whose member searches all fail and whose sends
succeed. -/
def noChat : ChatBehavior :=
  { searchMembers := fun _ _ => .error (.errorNew "offline")
    sendMessageErr := fun _ _ => none }


/-- The booking written back by ModifyBooking: the looked-up booking with
the six mutable fields overwritten by the caller-supplied values. -/
def modifiedBooking (booking updated : Booking) : Booking :=
  { booking with
    Game := updated.Game
    Points := updated.Points
    Description := updated.Description
    ReminderEnabled := updated.ReminderEnabled
    DateTime := updated.DateTime
    Players := updated.Players }

/-- Unfolding lemma for AcceptBooking when the lookup succeeds. -/
theorem Service.AcceptBooking_lookupOk (repo : RepoBehavior) (chat : ChatBehavior)
    (cid id : String) (b : Booking) (h : repo.getBookingByID id = (b, none)) :
    Service.AcceptBooking repo chat cid id =
      if b.Status = "canceled" ∨ b.Status = "accepted" then
        ⟨some .invalidBookingState, [], []⟩
      else
        match repo.setBookingStatusErr id "accepted" with
        | none =>
          ⟨none, [.setStatus id "accepted"],
           [sendNotification chat cid b ⟨"Réservation Acceptée :white_check_mark:", ""⟩]⟩
        | some e => ⟨some e, [.setStatus id "accepted"], []⟩ := by
  unfold Service.AcceptBooking
  rw [h]

/-- Unfolding lemma for RefuseBooking when the lookup succeeds. -/
theorem Service.RefuseBooking_lookupOk (repo : RepoBehavior) (chat : ChatBehavior)
    (cid id reason : String) (b : Booking) (h : repo.getBookingByID id = (b, none)) :
    Service.RefuseBooking repo chat cid id reason =
      if b.Status = "refused" ∨ b.Status = "canceled" then
        ⟨some .invalidBookingState, [], []⟩
      else
        match repo.setBookingStatusErr id "refused" with
        | none =>
          ⟨none, [.setStatus id "refused"],
           [sendNotification chat cid b ⟨"Réservation Refusée :no_entry:", reason⟩]⟩
        | some e => ⟨some e, [.setStatus id "refused"], []⟩ := by
  unfold Service.RefuseBooking
  rw [h]

/-- Unfolding lemma for CancelBooking when the lookup succeeds. -/
theorem Service.CancelBooking_lookupOk (repo : RepoBehavior) (chat : ChatBehavior)
    (cid id : String) (user : DiscordUser) (b : Booking)
    (h : repo.getBookingByID id = (b, none)) :
    Service.CancelBooking repo chat cid id user =
      if b.Status = "canceled" ∨ b.Status = "refused" then
        ⟨some .invalidBookingState, [], []⟩
      else if !(checkUserAllowed b user) then
        ⟨some .notAllowed, [], []⟩
      else
        match repo.setBookingStatusErr id "canceled" with
        | some e =>
          ⟨some (.wrap "failed to cancel booking" e), [.setStatus id "canceled"], []⟩
        | none =>
          ⟨none, [.setStatus id "canceled"],
           [sendNotification chat cid b
             ⟨"Réservation Annulée :negative_squared_cross_mark:", ""⟩]⟩ := by
  unfold Service.CancelBooking
  rw [h]

/-- Unfolding lemma for ModifyBooking when the lookup succeeds. -/
theorem Service.ModifyBooking_lookupOk (repo : RepoBehavior) (chat : ChatBehavior)
    (cid : String) (updated : Booking) (user : DiscordUser) (b : Booking)
    (h : repo.getBookingByID updated.ID = (b, none)) :
    Service.ModifyBooking repo chat cid updated user =
      if b.Status ≠ "pending" then
        ⟨some .invalidBookingState, [], []⟩
      else if !(checkUserAllowed b user) then
        ⟨some .notAllowed, [], []⟩
      else
        match repo.updateBookingErr (modifiedBooking b updated) with
        | none =>
          ⟨none, [.update (modifiedBooking b updated)],
           [sendNotification chat cid (modifiedBooking b updated)
             ⟨"Réservation Modifiée :pencil:", ""⟩]⟩
        | some e => ⟨some e, [.update (modifiedBooking b updated)], []⟩ := by
  unfold Service.ModifyBooking
  rw [h]
  rfl

/-- The concrete booking draft used as failing input for the create
claim: a caller-supplied status "accepted". -/
def draftWithStatusAccepted : Booking :=
  { Booking.zero with Game := "test1", Status := "accepted" }

/-- C1: evaluated at the failing input (a draft whose Status field is
"accepted", insert succeeding with generated id "1"), the SQL insert
commits a row whose status is forced to "pending", but the booking
returned by the successful CreateBooking retains the caller-supplied
status "accepted" — contradicting the claim that the returned booking
always has status "pending". -/
theorem c1_create_persists_pending_but_returns_caller_status :
    (createBookingWithRepository (.ok "1") noChat "chan" draftWithStatusAccepted).2
      = some { draftWithStatusAccepted with ID := "1", Status := "pending" }
    ∧ (createBookingWithRepository (.ok "1") noChat "chan" draftWithStatusAccepted).1.2.err
      = none
    ∧ ((createBookingWithRepository (.ok "1") noChat "chan" draftWithStatusAccepted).1.1).Status
      = "accepted" :=
  ⟨rfl, rfl, rfl⟩

/-- The concrete refused booking used as counterexample input for the
terminal-status claim. -/
def refusedBooking : Booking :=
  { Booking.zero with ID := "123", Status := "refused" }

/-- C2 counterexample: on a booking whose status is "refused",
AcceptBooking does not return InvalidState — it succeeds and issues a
repository write setting the status to "accepted", so "refused" is not
terminal under accept. -/
theorem c2_accept_from_refused_succeeds :
    (Service.AcceptBooking (constRepo refusedBooking) noChat "chan" "123").err = none
    ∧ (Service.AcceptBooking (constRepo refusedBooking) noChat "chan" "123").writes
      = [.setStatus "123" "accepted"] :=
  ⟨rfl, rfl⟩

/-- C2 (amended): for a booking whose status is "refused" or "canceled",
RefuseBooking, CancelBooking and ModifyBooking return InvalidState and
issue no repository write; AcceptBooking returns InvalidState when the
status is "canceled", but on a "refused" booking it proceeds: it issues
the write setting the status to "accepted" and returns exactly the
outcome of that write. -/
theorem c2_terminal_statuses_amended
    (repo : RepoBehavior) (chat : ChatBehavior) (cid id reason : String)
    (updated : Booking) (user : DiscordUser) (b : Booking)
    (h : repo.getBookingByID id = (b, none))
    (hm : repo.getBookingByID updated.ID = (b, none))
    (hs : b.Status = "refused" ∨ b.Status = "canceled") :
    Service.RefuseBooking repo chat cid id reason = ⟨some .invalidBookingState, [], []⟩
    ∧ Service.CancelBooking repo chat cid id user = ⟨some .invalidBookingState, [], []⟩
    ∧ Service.ModifyBooking repo chat cid updated user = ⟨some .invalidBookingState, [], []⟩
    ∧ (b.Status = "canceled" →
        Service.AcceptBooking repo chat cid id = ⟨some .invalidBookingState, [], []⟩)
    ∧ (b.Status = "refused" →
        (Service.AcceptBooking repo chat cid id).err = repo.setBookingStatusErr id "accepted"
        ∧ (Service.AcceptBooking repo chat cid id).writes = [.setStatus id "accepted"]) := by
  refine ⟨?_, ?_, ?_, ?_, ?_⟩
  · rw [Service.RefuseBooking_lookupOk repo chat cid id reason b h]
    exact if_pos hs
  · rw [Service.CancelBooking_lookupOk repo chat cid id user b h]
    exact if_pos hs.symm
  · rw [Service.ModifyBooking_lookupOk repo chat cid updated user b hm]
    refine if_pos ?_
    rcases hs with hs | hs <;> simp [hs]
  · intro hc
    rw [Service.AcceptBooking_lookupOk repo chat cid id b h]
    exact if_pos (Or.inl hc)
  · intro hr
    rw [Service.AcceptBooking_lookupOk repo chat cid id b h,
      if_neg (by simp [hr])]
    cases hw : repo.setBookingStatusErr id "accepted" <;> exact ⟨rfl, rfl⟩

/-- C2 witness: the amended statement instantiated on the concrete
refused booking with an all-succeeding repository. -/
theorem c2_terminal_statuses_amended_witness :
    Service.RefuseBooking (constRepo refusedBooking) noChat "chan" "123" "because"
      = ⟨some .invalidBookingState, [], []⟩
    ∧ Service.CancelBooking (constRepo refusedBooking) noChat "chan" "123" ⟨"u", "u", false⟩
      = ⟨some .invalidBookingState, [], []⟩
    ∧ Service.ModifyBooking (constRepo refusedBooking) noChat "chan" refusedBooking
        ⟨"u", "u", false⟩
      = ⟨some .invalidBookingState, [], []⟩
    ∧ (Service.AcceptBooking (constRepo refusedBooking) noChat "chan" "123").writes
      = [.setStatus "123" "accepted"] := by
  have h := c2_terminal_statuses_amended (constRepo refusedBooking) noChat "chan" "123"
    "because" refusedBooking ⟨"u", "u", false⟩ refusedBooking rfl rfl (Or.inl rfl)
  exact ⟨h.1, h.2.1, h.2.2.1, (h.2.2.2.2 rfl).2⟩

/-- A pending booking owned by user1 with players user1 and player2,
mirroring the fixtures of booking_service_test.go. -/
def pendingBooking : Booking :=
  { Booking.zero with
    ID := "123", Game := "test1", UserID := "user1ID", Username := "user1",
    Status := "pending", Players := ["user1", "player2"] }

/-- The owner caller of the test fixtures. -/
def ownerUser : DiscordUser := ⟨"user1ID", "user1", false⟩

/-- A caller who is neither owner nor listed player. -/
def strangerUser : DiscordUser := ⟨"someoneID", "someone", false⟩

/-- C3: the shared authorization predicate holds iff the caller's ID
equals the booking owner's user ID or the caller's username appears in
the players list; when it is false and the state check passed,
ModifyBooking and CancelBooking return NotAllowed and issue no
repository write, leaving the record unchanged. -/
theorem c3_authorization_predicate
    (repo : RepoBehavior) (chat : ChatBehavior) (cid id : String)
    (updated : Booking) (user : DiscordUser) (b bc : Booking)
    (hm : repo.getBookingByID updated.ID = (b, none))
    (hc : repo.getBookingByID id = (bc, none))
    (hpend : b.Status = "pending")
    (hcs1 : bc.Status ≠ "canceled") (hcs2 : bc.Status ≠ "refused")
    (hnb : checkUserAllowed b user = false)
    (hnbc : checkUserAllowed bc user = false) :
    (∀ bb : Booking, checkUserAllowed bb user = true ↔
        (bb.UserID = user.ID ∨ user.Username ∈ bb.Players))
    ∧ Service.ModifyBooking repo chat cid updated user = ⟨some .notAllowed, [], []⟩
    ∧ Service.CancelBooking repo chat cid id user = ⟨some .notAllowed, [], []⟩ := by
  refine ⟨?_, ?_, ?_⟩
  · intro bb
    simp [checkUserAllowed]
  · rw [Service.ModifyBooking_lookupOk repo chat cid updated user b hm,
      if_neg (by simp [hpend]), if_pos (by simp [hnb])]
  · rw [Service.CancelBooking_lookupOk repo chat cid id user bc hc,
      if_neg (by simp [hcs1, hcs2]), if_pos (by simp [hnbc])]

/-- C3 witness: a stranger (neither owner nor player) attempting modify
and cancel on the pending fixture booking is refused with NotAllowed and
no write. -/
theorem c3_authorization_predicate_witness :
    Service.ModifyBooking (constRepo pendingBooking) noChat "chan" pendingBooking strangerUser
      = ⟨some .notAllowed, [], []⟩
    ∧ Service.CancelBooking (constRepo pendingBooking) noChat "chan" "123" strangerUser
      = ⟨some .notAllowed, [], []⟩ := by
  have h := c3_authorization_predicate (constRepo pendingBooking) noChat "chan" "123"
    pendingBooking strangerUser pendingBooking pendingBooking rfl rfl rfl
    (by decide) (by decide) (by decide) (by decide)
  exact ⟨h.2.1, h.2.2⟩

/-- C4: on an existing booking, provided the status write does not
itself report InvalidState (the SQL repository only reports wrapped
storage errors or NotFound there), AcceptBooking returns InvalidState
exactly when the current status is "accepted" or "canceled"; for every
other current status it issues the single write setting the status to
"accepted" and, when that write succeeds, returns success with the
announcement. -/
theorem c4_accept_invalid_iff_accepted_or_canceled
    (repo : RepoBehavior) (chat : ChatBehavior) (cid id : String) (b : Booking)
    (h : repo.getBookingByID id = (b, none))
    (hne : repo.setBookingStatusErr id "accepted" ≠ some .invalidBookingState) :
    ((Service.AcceptBooking repo chat cid id).err = some .invalidBookingState
      ↔ (b.Status = "accepted" ∨ b.Status = "canceled"))
    ∧ (¬(b.Status = "accepted" ∨ b.Status = "canceled") →
        (Service.AcceptBooking repo chat cid id).writes = [.setStatus id "accepted"]
        ∧ (repo.setBookingStatusErr id "accepted" = none →
            Service.AcceptBooking repo chat cid id
              = ⟨none, [.setStatus id "accepted"],
                 [sendNotification chat cid b
                   ⟨"Réservation Acceptée :white_check_mark:", ""⟩]⟩)) := by
  rw [Service.AcceptBooking_lookupOk repo chat cid id b h]
  by_cases hs : b.Status = "canceled" ∨ b.Status = "accepted"
  · rw [if_pos hs]
    exact ⟨⟨fun _ => hs.symm, fun _ => rfl⟩, fun hn => absurd hs.symm hn⟩
  · rw [if_neg hs]
    cases hw : repo.setBookingStatusErr id "accepted" with
    | none =>
      exact ⟨⟨fun he => absurd he (fun he => nomatch he), fun hmem => absurd hmem.symm hs⟩,
        fun _ => ⟨rfl, fun _ => rfl⟩⟩
    | some e =>
      refine ⟨⟨fun he => ?_, fun hmem => absurd hmem.symm hs⟩,
        fun _ => ⟨rfl, fun hn => nomatch hn⟩⟩
      exact absurd (hw.trans he) hne

/-- C4 witness: accepting the pending fixture booking succeeds with the
status write, and on an already accepted booking the error is
InvalidState. -/
theorem c4_accept_invalid_iff_accepted_or_canceled_witness :
    Service.AcceptBooking (constRepo pendingBooking) noChat "chan" "123"
      = ⟨none, [.setStatus "123" "accepted"],
         [sendNotification noChat "chan" pendingBooking
           ⟨"Réservation Acceptée :white_check_mark:", ""⟩]⟩
    ∧ (Service.AcceptBooking (constRepo { pendingBooking with Status := "accepted" })
        noChat "chan" "123").err = some .invalidBookingState := by
  refine ⟨((c4_accept_invalid_iff_accepted_or_canceled (constRepo pendingBooking) noChat
    "chan" "123" pendingBooking rfl (by decide)).2 (by decide)).2 rfl, ?_⟩
  exact (c4_accept_invalid_iff_accepted_or_canceled
    (constRepo { pendingBooking with Status := "accepted" }) noChat "chan" "123"
    { pendingBooking with Status := "accepted" } rfl (by decide)).1.mpr (Or.inl rfl)

/-- C5: ModifyBooking returns InvalidState, issuing no write, for every
existing booking whose current status is not the exact string "pending",
whatever the acting user — the state check precedes the authorization
check and any write. -/
theorem c5_modify_requires_exact_pending
    (repo : RepoBehavior) (chat : ChatBehavior) (cid : String)
    (updated : Booking) (user : DiscordUser) (b : Booking)
    (h : repo.getBookingByID updated.ID = (b, none))
    (hs : b.Status ≠ "pending") :
    Service.ModifyBooking repo chat cid updated user = ⟨some .invalidBookingState, [], []⟩ := by
  rw [Service.ModifyBooking_lookupOk repo chat cid updated user b h]
  exact if_pos hs

/-- C5 witness: a booking with the unrecognized status "approved" is
refused with InvalidState even for its owner. -/
theorem c5_modify_requires_exact_pending_witness :
    Service.ModifyBooking (constRepo { pendingBooking with Status := "approved" }) noChat
        "chan" { pendingBooking with Status := "approved" } ownerUser
      = ⟨some .invalidBookingState, [], []⟩ :=
  c5_modify_requires_exact_pending (constRepo { pendingBooking with Status := "approved" })
    noChat "chan" { pendingBooking with Status := "approved" } ownerUser
    { pendingBooking with Status := "approved" } rfl (by decide)

/-- A repository behaviour that serves booking b for every lookup and
whose SetBookingStatus calls all fail with an opaque storage error. -/
def failingSetStatusRepo (b : Booking) : RepoBehavior :=
  { getBookingByID := fun _ => (b, none)
    insertBooking := fun x => (x, none)
    updateBookingErr := fun _ => none
    setBookingStatusErr := fun _ _ => some (.errorNew "repo error") }

/-- C6: the state check of CancelBooking precedes the authorization
check: on a booking whose status is "canceled" or "refused" every acting
user, authorized or not, receives InvalidState and no write is issued;
and when the status write fails, the returned error wraps the repository
error with the message "failed to cancel booking" — distinguishable from
the lookup's NotFound error — while no write committed, so the stored
status is unchanged. -/
theorem c6_cancel_state_first_and_wrapped_write_failure
    (repo : RepoBehavior) (chat : ChatBehavior) (cid id : String) (b : Booking)
    (h : repo.getBookingByID id = (b, none)) :
    (b.Status = "canceled" ∨ b.Status = "refused" →
      ∀ user : DiscordUser,
        Service.CancelBooking repo chat cid id user = ⟨some .invalidBookingState, [], []⟩)
    ∧ (∀ (user : DiscordUser) (e : GoError),
        b.Status ≠ "canceled" → b.Status ≠ "refused" →
        checkUserAllowed b user = true →
        repo.setBookingStatusErr id "canceled" = some e →
        Service.CancelBooking repo chat cid id user
          = ⟨some (.wrap "failed to cancel booking" e), [.setStatus id "canceled"], []⟩
        ∧ commitsOf repo (Service.CancelBooking repo chat cid id user).writes = []
        ∧ GoError.wrap "failed to cancel booking" e ≠ GoError.bookingNotFound) := by
  constructor
  · intro hs user
    rw [Service.CancelBooking_lookupOk repo chat cid id user b h]
    exact if_pos hs
  · intro user e h1 h2 ha hw
    rw [Service.CancelBooking_lookupOk repo chat cid id user b h,
      if_neg (by simp [h1, h2]), if_neg (by simp [ha]), hw]
    exact ⟨rfl, by simp [commitsOf, RepoWrite.committed, hw], by simp⟩

/-- C6 witness: cancelling the pending fixture booking as its owner with
a failing status write yields the wrapped "failed to cancel booking"
error and no committed write; on a refused booking even a stranger gets
InvalidState. -/
theorem c6_cancel_state_first_and_wrapped_write_failure_witness :
    Service.CancelBooking (failingSetStatusRepo pendingBooking) noChat "chan" "123" ownerUser
      = ⟨some (.wrap "failed to cancel booking" (.errorNew "repo error")),
         [.setStatus "123" "canceled"], []⟩
    ∧ commitsOf (failingSetStatusRepo pendingBooking)
        (Service.CancelBooking (failingSetStatusRepo pendingBooking) noChat "chan" "123"
          ownerUser).writes = []
    ∧ Service.CancelBooking (constRepo refusedBooking) noChat "chan" "123" strangerUser
      = ⟨some .invalidBookingState, [], []⟩ := by
  have h1 := (c6_cancel_state_first_and_wrapped_write_failure
    (failingSetStatusRepo pendingBooking) noChat "chan" "123" pendingBooking rfl).2
    ownerUser (.errorNew "repo error") (by decide) (by decide) (by decide) rfl
  have h2 := (c6_cancel_state_first_and_wrapped_write_failure
    (constRepo refusedBooking) noChat "chan" "123" refusedBooking rfl).1
    (Or.inr rfl) strangerUser
  exact ⟨h1.1, h1.2.1, h2⟩

/-- C7: a successful ModifyBooking writes back exactly one booking, equal
to the stored one on ID, owner user ID, owner username and status, and
equal to the caller-supplied values on the six mutable fields (game,
points, description, reminder flag, date-time, players). -/
theorem c7_modify_frame
    (repo : RepoBehavior) (chat : ChatBehavior) (cid : String)
    (updated : Booking) (user : DiscordUser) (b : Booking)
    (h : repo.getBookingByID updated.ID = (b, none))
    (hs : b.Status = "pending") (ha : checkUserAllowed b user = true) :
    ∃ b2 : Booking,
      (Service.ModifyBooking repo chat cid updated user).writes = [.update b2]
      ∧ b2.ID = b.ID ∧ b2.UserID = b.UserID ∧ b2.Username = b.Username
      ∧ b2.Status = b.Status
      ∧ b2.Game = updated.Game ∧ b2.Points = updated.Points
      ∧ b2.Description = updated.Description
      ∧ b2.ReminderEnabled = updated.ReminderEnabled
      ∧ b2.DateTime = updated.DateTime ∧ b2.Players = updated.Players := by
  refine ⟨modifiedBooking b updated, ?_, rfl, rfl, rfl, rfl, rfl, rfl, rfl, rfl, rfl, rfl⟩
  rw [Service.ModifyBooking_lookupOk repo chat cid updated user b h,
    if_neg (by simp [hs]), if_neg (by simp [ha])]
  cases hw : repo.updateBookingErr (modifiedBooking b updated) <;> rfl

/-- C7 witness: the owner modifying the pending fixture booking with a
draft that tries to change ID, owner and status results in one written
booking keeping the stored identity and status while taking the mutable
fields from the draft. -/
theorem c7_modify_frame_witness :
    ∃ b2 : Booking,
      (Service.ModifyBooking (constRepo pendingBooking) noChat "chan"
        { Booking.zero with
          ID := "123", Game := "chess", UserID := "intruderID", Username := "intruder",
          Points := 5, Description := "new", Status := "accepted",
          ReminderEnabled := true, DateTime := 42, Players := ["x"] } ownerUser).writes
        = [.update b2]
      ∧ b2.ID = pendingBooking.ID ∧ b2.UserID = pendingBooking.UserID
      ∧ b2.Username = pendingBooking.Username ∧ b2.Status = pendingBooking.Status
      ∧ b2.Game = "chess" ∧ b2.Points = 5 ∧ b2.Description = "new"
      ∧ b2.ReminderEnabled = true ∧ b2.DateTime = 42 ∧ b2.Players = ["x"] := by
  exact c7_modify_frame (constRepo pendingBooking) noChat "chan"
    { Booking.zero with
      ID := "123", Game := "chess", UserID := "intruderID", Username := "intruder",
      Points := 5, Description := "new", Status := "accepted",
      ReminderEnabled := true, DateTime := 42, Players := ["x"] } ownerUser
    pendingBooking rfl rfl (by decide)

/-- Unfolding lemma for AcceptBooking when the lookup fails. -/
theorem Service.AcceptBooking_lookupErr (repo : RepoBehavior) (chat : ChatBehavior)
    (cid id : String) (b : Booking) (e : GoError)
    (h : repo.getBookingByID id = (b, some e)) :
    Service.AcceptBooking repo chat cid id = ⟨some e, [], []⟩ := by
  unfold Service.AcceptBooking
  rw [h]

/-- Unfolding lemma for RefuseBooking when the lookup fails. -/
theorem Service.RefuseBooking_lookupErr (repo : RepoBehavior) (chat : ChatBehavior)
    (cid id reason : String) (b : Booking) (e : GoError)
    (h : repo.getBookingByID id = (b, some e)) :
    Service.RefuseBooking repo chat cid id reason = ⟨some e, [], []⟩ := by
  unfold Service.RefuseBooking
  rw [h]

/-- Unfolding lemma for CancelBooking when the lookup fails. -/
theorem Service.CancelBooking_lookupErr (repo : RepoBehavior) (chat : ChatBehavior)
    (cid id : String) (user : DiscordUser) (b : Booking) (e : GoError)
    (h : repo.getBookingByID id = (b, some e)) :
    Service.CancelBooking repo chat cid id user = ⟨some e, [], []⟩ := by
  unfold Service.CancelBooking
  rw [h]

/-- Unfolding lemma for ModifyBooking when the lookup fails. -/
theorem Service.ModifyBooking_lookupErr (repo : RepoBehavior) (chat : ChatBehavior)
    (cid : String) (updated : Booking) (user : DiscordUser) (b : Booking) (e : GoError)
    (h : repo.getBookingByID updated.ID = (b, some e)) :
    Service.ModifyBooking repo chat cid updated user = ⟨some e, [], []⟩ := by
  unfold Service.ModifyBooking
  rw [h]

/-- Chat-client independence and announcement condition for create. -/
theorem Service.CreateBooking_chatInv (repo : RepoBehavior) (chat chat' : ChatBehavior)
    (cid : String) (b : Booking) :
    (Service.CreateBooking repo chat cid b).1 = (Service.CreateBooking repo chat' cid b).1
    ∧ (Service.CreateBooking repo chat cid b).2.err
      = (Service.CreateBooking repo chat' cid b).2.err
    ∧ (Service.CreateBooking repo chat cid b).2.writes
      = (Service.CreateBooking repo chat' cid b).2.writes
    ∧ ((Service.CreateBooking repo chat cid b).2.sent ≠ [] ↔
        commitsOf repo (Service.CreateBooking repo chat cid b).2.writes ≠ []) := by
  unfold Service.CreateBooking
  rcases hg : repo.insertBooking b with ⟨ins, e⟩
  cases e
  · exact ⟨rfl, rfl, rfl, by simp [commitsOf, RepoWrite.committed, hg]⟩
  · exact ⟨rfl, rfl, rfl, by simp [commitsOf, RepoWrite.committed, hg]⟩

/-- Chat-client independence and announcement condition for accept. -/
theorem Service.AcceptBooking_chatInv (repo : RepoBehavior) (chat chat' : ChatBehavior)
    (cid id : String) :
    (Service.AcceptBooking repo chat cid id).err = (Service.AcceptBooking repo chat' cid id).err
    ∧ (Service.AcceptBooking repo chat cid id).writes
      = (Service.AcceptBooking repo chat' cid id).writes
    ∧ ((Service.AcceptBooking repo chat cid id).sent ≠ [] ↔
        commitsOf repo (Service.AcceptBooking repo chat cid id).writes ≠ []) := by
  rcases hg : repo.getBookingByID id with ⟨b, e⟩
  cases e with
  | none =>
    rw [Service.AcceptBooking_lookupOk repo chat cid id b hg,
      Service.AcceptBooking_lookupOk repo chat' cid id b hg]
    by_cases hs : b.Status = "canceled" ∨ b.Status = "accepted"
    · simp only [if_pos hs]
      exact ⟨by trivial, by trivial, by simp [commitsOf]⟩
    · simp only [if_neg hs]
      cases hw : repo.setBookingStatusErr id "accepted" <;>
        exact ⟨by trivial, by trivial, by simp [commitsOf, RepoWrite.committed, hw]⟩
  | some e =>
    rw [Service.AcceptBooking_lookupErr repo chat cid id b e hg,
      Service.AcceptBooking_lookupErr repo chat' cid id b e hg]
    exact ⟨by trivial, by trivial, by simp [commitsOf]⟩

/-- Chat-client independence and announcement condition for refuse. -/
theorem Service.RefuseBooking_chatInv (repo : RepoBehavior) (chat chat' : ChatBehavior)
    (cid id reason : String) :
    (Service.RefuseBooking repo chat cid id reason).err
      = (Service.RefuseBooking repo chat' cid id reason).err
    ∧ (Service.RefuseBooking repo chat cid id reason).writes
      = (Service.RefuseBooking repo chat' cid id reason).writes
    ∧ ((Service.RefuseBooking repo chat cid id reason).sent ≠ [] ↔
        commitsOf repo (Service.RefuseBooking repo chat cid id reason).writes ≠ []) := by
  rcases hg : repo.getBookingByID id with ⟨b, e⟩
  cases e with
  | none =>
    rw [Service.RefuseBooking_lookupOk repo chat cid id reason b hg,
      Service.RefuseBooking_lookupOk repo chat' cid id reason b hg]
    by_cases hs : b.Status = "refused" ∨ b.Status = "canceled"
    · simp only [if_pos hs]
      exact ⟨by trivial, by trivial, by simp [commitsOf]⟩
    · simp only [if_neg hs]
      cases hw : repo.setBookingStatusErr id "refused" <;>
        exact ⟨by trivial, by trivial, by simp [commitsOf, RepoWrite.committed, hw]⟩
  | some e =>
    rw [Service.RefuseBooking_lookupErr repo chat cid id reason b e hg,
      Service.RefuseBooking_lookupErr repo chat' cid id reason b e hg]
    exact ⟨by trivial, by trivial, by simp [commitsOf]⟩

/-- Chat-client independence and announcement condition for cancel. -/
theorem Service.CancelBooking_chatInv (repo : RepoBehavior) (chat chat' : ChatBehavior)
    (cid id : String) (user : DiscordUser) :
    (Service.CancelBooking repo chat cid id user).err
      = (Service.CancelBooking repo chat' cid id user).err
    ∧ (Service.CancelBooking repo chat cid id user).writes
      = (Service.CancelBooking repo chat' cid id user).writes
    ∧ ((Service.CancelBooking repo chat cid id user).sent ≠ [] ↔
        commitsOf repo (Service.CancelBooking repo chat cid id user).writes ≠ []) := by
  rcases hg : repo.getBookingByID id with ⟨b, e⟩
  cases e with
  | none =>
    rw [Service.CancelBooking_lookupOk repo chat cid id user b hg,
      Service.CancelBooking_lookupOk repo chat' cid id user b hg]
    by_cases hs : b.Status = "canceled" ∨ b.Status = "refused"
    · simp only [if_pos hs]
      exact ⟨by trivial, by trivial, by simp [commitsOf]⟩
    · simp only [if_neg hs]
      by_cases ha : (!checkUserAllowed b user) = true
      · simp only [if_pos ha]
        exact ⟨by trivial, by trivial, by simp [commitsOf]⟩
      · simp only [if_neg ha]
        cases hw : repo.setBookingStatusErr id "canceled" <;>
          exact ⟨by trivial, by trivial, by simp [commitsOf, RepoWrite.committed, hw]⟩
  | some e =>
    rw [Service.CancelBooking_lookupErr repo chat cid id user b e hg,
      Service.CancelBooking_lookupErr repo chat' cid id user b e hg]
    exact ⟨by trivial, by trivial, by simp [commitsOf]⟩

/-- Chat-client independence and announcement condition for modify. -/
theorem Service.ModifyBooking_chatInv (repo : RepoBehavior) (chat chat' : ChatBehavior)
    (cid : String) (updated : Booking) (user : DiscordUser) :
    (Service.ModifyBooking repo chat cid updated user).err
      = (Service.ModifyBooking repo chat' cid updated user).err
    ∧ (Service.ModifyBooking repo chat cid updated user).writes
      = (Service.ModifyBooking repo chat' cid updated user).writes
    ∧ ((Service.ModifyBooking repo chat cid updated user).sent ≠ [] ↔
        commitsOf repo (Service.ModifyBooking repo chat cid updated user).writes ≠ []) := by
  rcases hg : repo.getBookingByID updated.ID with ⟨b, e⟩
  cases e with
  | none =>
    rw [Service.ModifyBooking_lookupOk repo chat cid updated user b hg,
      Service.ModifyBooking_lookupOk repo chat' cid updated user b hg]
    by_cases hs : b.Status ≠ "pending"
    · simp only [if_pos hs]
      exact ⟨by trivial, by trivial, by simp [commitsOf]⟩
    · simp only [if_neg hs]
      by_cases ha : (!checkUserAllowed b user) = true
      · simp only [if_pos ha]
        exact ⟨by trivial, by trivial, by simp [commitsOf]⟩
      · simp only [if_neg ha]
        cases hw : repo.updateBookingErr (modifiedBooking b updated) <;>
          exact ⟨by trivial, by trivial, by simp [commitsOf, RepoWrite.committed, hw]⟩
  | some e =>
    rw [Service.ModifyBooking_lookupErr repo chat cid updated user b e hg,
      Service.ModifyBooking_lookupErr repo chat' cid updated user b e hg]
    exact ⟨by trivial, by trivial, by simp [commitsOf]⟩

/-- C8: for each lifecycle operation, the caller-visible return value
(and the repository writes) are identical under any two chat-client
behaviours, and an announcement is handed to the chat client exactly
when a repository write was issued and committed. -/
theorem c8_chat_independence_and_announcement_iff_commit
    (repo : RepoBehavior) (chat chat' : ChatBehavior) (cid : String)
    (draft updated : Booking) (id reason : String) (user : DiscordUser) :
    ((Service.CreateBooking repo chat cid draft).1
        = (Service.CreateBooking repo chat' cid draft).1
      ∧ (Service.CreateBooking repo chat cid draft).2.err
        = (Service.CreateBooking repo chat' cid draft).2.err
      ∧ ((Service.CreateBooking repo chat cid draft).2.sent ≠ [] ↔
          commitsOf repo (Service.CreateBooking repo chat cid draft).2.writes ≠ []))
    ∧ ((Service.ModifyBooking repo chat cid updated user).err
        = (Service.ModifyBooking repo chat' cid updated user).err
      ∧ ((Service.ModifyBooking repo chat cid updated user).sent ≠ [] ↔
          commitsOf repo (Service.ModifyBooking repo chat cid updated user).writes ≠ []))
    ∧ ((Service.AcceptBooking repo chat cid id).err
        = (Service.AcceptBooking repo chat' cid id).err
      ∧ ((Service.AcceptBooking repo chat cid id).sent ≠ [] ↔
          commitsOf repo (Service.AcceptBooking repo chat cid id).writes ≠ []))
    ∧ ((Service.RefuseBooking repo chat cid id reason).err
        = (Service.RefuseBooking repo chat' cid id reason).err
      ∧ ((Service.RefuseBooking repo chat cid id reason).sent ≠ [] ↔
          commitsOf repo (Service.RefuseBooking repo chat cid id reason).writes ≠ []))
    ∧ ((Service.CancelBooking repo chat cid id user).err
        = (Service.CancelBooking repo chat' cid id user).err
      ∧ ((Service.CancelBooking repo chat cid id user).sent ≠ [] ↔
          commitsOf repo (Service.CancelBooking repo chat cid id user).writes ≠ [])) := by
  have hcr := Service.CreateBooking_chatInv repo chat chat' cid draft
  have hmo := Service.ModifyBooking_chatInv repo chat chat' cid updated user
  have hac := Service.AcceptBooking_chatInv repo chat chat' cid id
  have href := Service.RefuseBooking_chatInv repo chat chat' cid id reason
  have hca := Service.CancelBooking_chatInv repo chat chat' cid id user
  exact ⟨⟨hcr.1, hcr.2.1, hcr.2.2.2⟩, ⟨hmo.1, hmo.2.2⟩, ⟨hac.1, hac.2.2⟩,
    ⟨href.1, href.2.2⟩, ⟨hca.1, hca.2.2⟩⟩

/-- The filterMap characterization of the player-tag loop: a player name
contributes a tag exactly when its member search returns no error and a
non-empty list, and the tag is built from the first returned member. -/
theorem playerTagsOf_eq_filterMap (search : String → Nat → Except GoError (List Member))
    (ps : List String) :
    playerTagsOf search ps = ps.filterMap (fun p =>
      match search p 1 with
      | .ok (m :: _) => some ("<@" ++ m.User.ID ++ ">")
      | .ok [] => none
      | .error _ => none) := by
  induction ps with
  | nil => rfl
  | cons p rest ih =>
    rw [List.filterMap_cons]
    unfold playerTagsOf
    cases hs : search p 1 with
    | ok ms => cases ms <;> simp [ih]
    | error e => simp [ih]

/-- C9: every composed announcement carries a Joueurs field joining, in
order, exactly the tags of those player names whose member search with
limit 1 returned no error and a non-empty result, each tag referencing
the first returned member; names whose resolution fails or is empty are
omitted, and the announcement message is still produced. -/
theorem c9_player_tags (chat : ChatBehavior) (cid : String) (b : Booking)
    (opts : NotificationOptions) :
    EmbedField.mk "Joueurs"
        (String.intercalate ", " (b.Players.filterMap (fun p =>
          match chat.searchMembers p 1 with
          | .ok (m :: _) => some ("<@" ++ m.User.ID ++ ">")
          | .ok [] => none
          | .error _ => none))) true
      ∈ (composeEmbed chat cid b opts).Fields
    ∧ (sendNotification chat cid b opts).Embeds = [composeEmbed chat cid b opts] := by
  refine ⟨?_, rfl⟩
  rw [← playerTagsOf_eq_filterMap chat.searchMembers b.Players]
  by_cases hr : opts.reason.length ≠ 0 <;> simp [composeEmbed, hr]

/-- A platform tag is never the empty string. -/
theorem tag_ne_empty (s : String) : ("<@" ++ s ++ ">") ≠ "" := by
  intro h
  have hl := congrArg String.length h
  simp [String.length_append] at hl
  exact absurd hl.2 (by decide)

/-- C10: every composed announcement carries a non-empty Utilisateur
field, tagging the owner's user ID when it is non-empty and falling back
to a tag built from the owner's username otherwise, and a Description
field rendering an empty description as the literal "Aucune". -/
theorem c10_user_and_description_fields (chat : ChatBehavior) (cid : String) (b : Booking)
    (opts : NotificationOptions) :
    EmbedField.mk "Utilisateur"
        (if b.UserID.length ≠ 0 then "<@" ++ b.UserID ++ ">" else "<@" ++ b.Username ++ ">")
        true
      ∈ (composeEmbed chat cid b opts).Fields
    ∧ (if b.UserID.length ≠ 0 then "<@" ++ b.UserID ++ ">" else "<@" ++ b.Username ++ ">")
      ≠ ""
    ∧ EmbedField.mk "Description"
        (if b.Description.length ≠ 0 then b.Description else "Aucune") true
      ∈ (composeEmbed chat cid b opts).Fields := by
  refine ⟨?_, ?_, ?_⟩
  · by_cases hr : opts.reason.length ≠ 0 <;> simp [composeEmbed, hr]
  · by_cases hid : b.UserID.length ≠ 0
    · rw [if_pos hid]
      exact tag_ne_empty b.UserID
    · rw [if_neg hid]
      exact tag_ne_empty b.Username
  · by_cases hr : opts.reason.length ≠ 0 <;> simp [composeEmbed, hr]
